import Mathlib

/-!
Shallow embedding of `configure-expect.py`: a driver that feeds scripted
answers to the interactive TensorFlow configure wizard via pexpect.

The filesystem is abstracted as a predicate `pathExists : String → Bool`
standing for `os.path.exists`.  Python `assert`/`raise` failures are
modelled as `Except.error msg` carrying the literal message string from
the source.  The prompt/answer sequence produced by `run()` is modelled
as the list of (expected pattern, optional answer line) steps the driver
performs when every `expect` call matches.
-/

/-- Embedding of the `bool_y_n` class: a boolean whose string form is the
single character Y or N. -/
structure bool_y_n where
  value : Bool
deriving DecidableEq

/-- Embedding of `bool_y_n.__bool__`: `True if self.value else False`. -/
def bool_y_n.toBool (b : bool_y_n) : Bool :=
  if b.value then true else false

/-- Embedding of `bool_y_n.__repr__` (= `__str__`): Y if the value is true,
N otherwise. -/
def bool_y_n.str (b : bool_y_n) : String :=
  if b.value then "Y" else "N"

/-- Python whitespace characters recognised by `str.strip()`. -/
def pyIsSpace (c : Char) : Bool :=
  c = ' ' || c = '\t' || c = '\n' || c = '\r' || c = '\x0b' || c = '\x0c'

/-- Embedding of Python `str.strip()`: drop leading and trailing
whitespace. -/
def pyStrip (s : String) : String :=
  String.mk (((s.data.dropWhile pyIsSpace).reverse.dropWhile pyIsSpace).reverse)

/-- The keyword arguments of `PexpectTensorFlowConfigure.__init__`, with
Python `Optional` values embedded as `Option`. -/
structure Params where
  command : String
  python_version : String
  with_jemalloc : Bool
  with_google_cloud_platform : Bool
  with_hdfs : Bool
  with_amazon_s3 : Bool
  with_kafka : Bool
  with_xla_jit : Bool
  with_gdr : Bool
  with_verbs : Bool
  with_opencl_sycl : Bool
  with_cuda : Bool
  with_fresh_clang : Bool
  with_mpi : Bool
  cuda_version : Option String
  cuda_path : Option String
  cuda_cudnn_version : Option String
  cuda_cudnn_path : Option String
  cuda_with_tensorrt : Bool
  cuda_tensorrt_path : Option String
  cuda_nccl_version : Option String
  cuda_capabilities : Option (List String)
  cuda_with_clang : Bool
  cuda_gcc_path : Option String
  mpi_path : Option String
  opts_flags : Option (List String)
deriving DecidableEq

/-- The attributes stored on a successfully constructed
`PexpectTensorFlowConfigure` object (the `self.x = ...` assignments at
the end of `__init__`; booleans are wrapped in `bool_y_n`). -/
structure PexpectTensorFlowConfigure where
  command : String
  python_version : String
  with_jemalloc : bool_y_n
  with_google_cloud_platform : bool_y_n
  with_hdfs : bool_y_n
  with_amazon_s3 : bool_y_n
  with_kafka : bool_y_n
  with_xla_jit : bool_y_n
  with_gdr : bool_y_n
  with_verbs : bool_y_n
  with_opencl_sycl : bool_y_n
  with_cuda : bool_y_n
  with_fresh_clang : bool_y_n
  with_mpi : bool_y_n
  cuda_version : Option String
  cuda_path : Option String
  cuda_cudnn_version : Option String
  cuda_cudnn_path : Option String
  cuda_with_tensorrt : bool_y_n
  cuda_tensorrt_path : Option String
  cuda_nccl_version : Option String
  cuda_capabilities : Option (List String)
  cuda_with_clang : bool_y_n
  cuda_gcc_path : Option String
  mpi_path : Option String
  opts_flags : Option (List String)
deriving DecidableEq

/-- The record built by the assignment block of `__init__` once all
validation has passed. -/
def PexpectTensorFlowConfigure.ofParams (p : Params) : PexpectTensorFlowConfigure :=
  { command := p.command
    python_version := p.python_version
    with_jemalloc := ⟨p.with_jemalloc⟩
    with_google_cloud_platform := ⟨p.with_google_cloud_platform⟩
    with_hdfs := ⟨p.with_hdfs⟩
    with_amazon_s3 := ⟨p.with_amazon_s3⟩
    with_kafka := ⟨p.with_kafka⟩
    with_xla_jit := ⟨p.with_xla_jit⟩
    with_gdr := ⟨p.with_gdr⟩
    with_verbs := ⟨p.with_verbs⟩
    with_opencl_sycl := ⟨p.with_opencl_sycl⟩
    with_cuda := ⟨p.with_cuda⟩
    with_fresh_clang := ⟨p.with_fresh_clang⟩
    with_mpi := ⟨p.with_mpi⟩
    cuda_version := p.cuda_version
    cuda_path := p.cuda_path
    cuda_cudnn_version := p.cuda_cudnn_version
    cuda_cudnn_path := p.cuda_cudnn_path
    cuda_with_tensorrt := ⟨p.cuda_with_tensorrt⟩
    cuda_tensorrt_path := p.cuda_tensorrt_path
    cuda_nccl_version := p.cuda_nccl_version
    cuda_capabilities := p.cuda_capabilities
    cuda_with_clang := ⟨p.cuda_with_clang⟩
    cuda_gcc_path := p.cuda_gcc_path
    mpi_path := p.mpi_path
    opts_flags := p.opts_flags }

/-- The CUDA validation block of `__init__` (`if with_cuda:`), asserts in
source order, each failure carrying the literal assert message. -/
def checkCuda (p : Params) (pathExists : String → Bool) : Except String Unit :=
  if !p.with_cuda then .ok () else
  if p.cuda_version.isNone then .error "cuda_version must be set if with_cuda=True" else
  if p.cuda_path.isNone then .error "cuda_path must be set if with_cuda=True" else
  if p.cuda_cudnn_version.isNone then .error "cuda_cudnn_version must be set if with_cuda=True" else
  if p.cuda_cudnn_path.isNone then .error "cuda_cudnn_path must be set if with_cuda=True" else
  if p.cuda_nccl_version.isNone then .error "cuda_nccl_version must be set if with_cuda=True" else
  if p.cuda_capabilities.isNone then .error "cuda_capabilities must be set if with_cuda=True" else
  if p.cuda_gcc_path.isNone then .error "cuda_gcc_path must be set if with_cuda=True" else
  if !(pathExists (p.cuda_path.getD "")) then .error "cuda_path is set a non existing folder" else
  if !(pathExists (p.cuda_cudnn_path.getD "")) then .error "cuda_cudnn_path is set a non existing folder" else
  if !p.cuda_with_clang && p.cuda_gcc_path.isNone then .error "cuda_gcc_path must be set if cuda_with_clang=True" else
  if !p.cuda_with_clang && !(pathExists (p.cuda_gcc_path.getD "")) then .error "cuda_gcc_path is set a non existing file" else
  if p.cuda_with_tensorrt && p.cuda_tensorrt_path.isNone then .error "cuda_tensorrt_path must be set if cuda_with_tensorrt=True" else
  if p.cuda_with_tensorrt && !(pathExists (p.cuda_tensorrt_path.getD "")) then .error "cuda_tensorrt_path is set a non existing folder" else
  .ok ()

/-- The MPI validation block of `__init__` (`if with_mpi:`). -/
def checkMpi (p : Params) (pathExists : String → Bool) : Except String Unit :=
  if p.with_mpi && p.mpi_path.isNone then .error "mpi_path must be set if with_mpi=True" else
  if p.with_mpi && !(pathExists (p.mpi_path.getD "")) then .error "mpi_path is set a non existing folder" else
  .ok ()

/-- Embedding of `PexpectTensorFlowConfigure.__init__`: the validation
checks in source order, then the constructed object.  A raised
`AssertionError` / `NotImplementedError` is an `Except.error` carrying
the literal message. -/
def PexpectTensorFlowConfigure.init (p : Params) (pathExists : String → Bool) :
    Except String PexpectTensorFlowConfigure :=
  if !(pathExists p.command) then .error "command must be a valid path to TensorFlow configure script" else
  if p.with_opencl_sycl then .error "with_opencl_sycl=True is not implemented" else
  if p.cuda_with_clang then .error "cuda_with_clang=True is not implemented" else
  match checkCuda p pathExists with
  | .error e => .error e
  | .ok _ =>
    match checkMpi p pathExists with
    | .error e => .error e
    | .ok _ => .ok (PexpectTensorFlowConfigure.ofParams p)

/-- Embedding of the `python_bin_path` property: the fixed-template path,
asserted to exist. -/
def PexpectTensorFlowConfigure.python_bin_path (c : PexpectTensorFlowConfigure)
    (pathExists : String → Bool) : Except String String :=
  let p := "/usr/bin/python" ++ c.python_version
  if pathExists p then .ok p else .error (p ++ " does not exist")

/-- Embedding of Python `str.startswith`: the candidate is a prefix of
the string (stated over the character lists so that it computes). -/
def pyStartsWith (s pre : String) : Bool :=
  List.isPrefixOf pre.data s.data

/-- The dist-packages path selected by the `python_dist_path` property:
version-templated for the 2.x line, fixed for the 3.x line. -/
def pythonDistPathStr (v : String) : String :=
  if pyStartsWith v "2." then "/usr/lib/python" ++ v ++ "/dist-packages"
  else "/usr/lib/python3/dist-packages"

/-- Embedding of the `python_dist_path` property: the selected path,
asserted to exist. -/
def PexpectTensorFlowConfigure.python_dist_path (c : PexpectTensorFlowConfigure)
    (pathExists : String → Bool) : Except String String :=
  let p := pythonDistPathStr c.python_version
  if pathExists p then .ok p else .error (p ++ " does not exist")

/-- Embedding of the `opts_flags_str` property: empty string if no flags,
otherwise each flag stripped and joined with single spaces. -/
def PexpectTensorFlowConfigure.opts_flags_str (c : PexpectTensorFlowConfigure) : String :=
  match c.opts_flags with
  | none => ""
  | some l => String.intercalate " " (l.map pyStrip)

/-- The comma join performed by the `cuda_capabilities_str` property on the
capability list, each element stripped. -/
def cudaCapabilitiesJoin (l : List String) : String :=
  String.intercalate "," (l.map pyStrip)

/-- Embedding of the `cuda_capabilities_str` property; iterating over a
`None` capability list raises in Python, hence the error case. -/
def PexpectTensorFlowConfigure.cuda_capabilities_str (c : PexpectTensorFlowConfigure) :
    Except String String :=
  match c.cuda_capabilities with
  | none => .error "TypeError: NoneType object is not iterable"
  | some l => .ok (cudaCapabilitiesJoin l)

/-- What a single `self.script.expect(...)` call waits for: a regular
expression over the output, or end-of-stream (`pexpect.EOF`). -/
inductive Pattern where
  | regex (r : String)
  | eof
deriving DecidableEq

/-- One `_pexpect_line_answer(question, answer)` step: the expected
pattern and the optional line written back (`None` means wait only). -/
structure Step where
  pattern : Pattern
  answer : Option String
deriving DecidableEq

/- The literal regular-expression strings used by `run()`. -/

def pythonBinPat : String := "Please specify the location of python\\..*"

def pythonLibPat : String := "Please input the desired Python library path to use\\..*"

def jemallocPat : String := "Do you wish to build TensorFlow with jemalloc as malloc support?.*"

def gcpPat : String := "Do you wish to build TensorFlow with Google Cloud Platform support?.*"

def hdfsPat : String := "Do you wish to build TensorFlow with Hadoop File System support?.*"

def s3Pat : String := "Do you wish to build TensorFlow with Amazon S3 File System support?.*"

def kafkaPat : String := "Do you wish to build TensorFlow with Apache Kafka Platform support?.*"

def xlaPat : String := "Do you wish to build TensorFlow with XLA JIT support?.*"

def gdrPat : String := "Do you wish to build TensorFlow with GDR support?.*"

def verbsPat : String := "Do you wish to build TensorFlow with VERBS support?.*"

def syclPat : String := "Do you wish to build TensorFlow with OpenCL SYCL support?.*"

def cudaPat : String := "Do you wish to build TensorFlow with CUDA support?.*"

def cudaVersionPat : String := "Please specify the CUDA SDK version you want to use.*"

def cudaPathPat : String := "Please specify the location where CUDA .* toolkit is installed\\..*"

def cudnnVersionPat : String := "Please specify the cuDNN version you want to use\\..*"

def cudnnPathPat : String := "Please specify the location where cuDNN .* library is installed\\..*"

def tensorrtPat : String := "Do you wish to build TensorFlow with TensorRT support?.*"

def tensorrtPathPat : String := "Please specify the location where TensorRT is installed\\..*"

def ncclPat : String := "Please specify the NCCL version you want to use\\..*"

def capsPat : String := "Please specify a list of comma-separated Cuda compute capabilities you want to build with\\..*"

def clangPat : String := "Do you want to use clang as CUDA compiler?.*"

def gccPat : String := "Please specify which gcc should be used by nvcc as the host compiler\\..*"

def freshClangPat : String := "Do you wish to download a fresh release of clang?.*"

def mpiPat : String := "Do you wish to build TensorFlow with MPI support?.*"

def mpiPathPat : String := "Please specify the MPI toolkit folder\\..*"

def optsPat : String := "Please specify optimization flags to use during compilation when bazel option.*"

def androidPat : String := "Would you like to interactively configure \\./WORKSPACE for Android builds?.*"

def finishedPat : String := "Configuration finished"

/-- The first twelve steps of `run()`: interpreter paths, the nine yes/no
feature prompts, and the CUDA yes/no prompt. -/
def PexpectTensorFlowConfigure.headSteps (c : PexpectTensorFlowConfigure)
    (pbin pdist : String) : List Step :=
  [ ⟨.regex pythonBinPat, some pbin⟩,
    ⟨.regex pythonLibPat, some pdist⟩,
    ⟨.regex jemallocPat, some c.with_jemalloc.str⟩,
    ⟨.regex gcpPat, some c.with_google_cloud_platform.str⟩,
    ⟨.regex hdfsPat, some c.with_hdfs.str⟩,
    ⟨.regex s3Pat, some c.with_amazon_s3.str⟩,
    ⟨.regex kafkaPat, some c.with_kafka.str⟩,
    ⟨.regex xlaPat, some c.with_xla_jit.str⟩,
    ⟨.regex gdrPat, some c.with_gdr.str⟩,
    ⟨.regex verbsPat, some c.with_verbs.str⟩,
    ⟨.regex syclPat, some c.with_opencl_sycl.str⟩,
    ⟨.regex cudaPat, some c.with_cuda.str⟩ ]

/-- The `if self.with_cuda:` branch of `run()`: the CUDA prompt chain (with
the TensorRT sub-branch and the unimplemented clang sub-branch), or the
fresh-clang prompt when CUDA is disabled. -/
def PexpectTensorFlowConfigure.cudaBranch (c : PexpectTensorFlowConfigure) :
    Except String (List Step) :=
  if !c.with_cuda.toBool then
    .ok [⟨.regex freshClangPat, some c.with_fresh_clang.str⟩]
  else
    match c.cuda_capabilities with
    | none => .error "TypeError: NoneType object is not iterable"
    | some caps =>
      if c.cuda_with_clang.toBool then
        .error "cuda_with_clang=True is not implemented"
      else
        .ok ([ ⟨.regex cudaVersionPat, c.cuda_version⟩,
               ⟨.regex cudaPathPat, c.cuda_path⟩,
               ⟨.regex cudnnVersionPat, c.cuda_cudnn_version⟩,
               ⟨.regex cudnnPathPat, c.cuda_cudnn_path⟩,
               ⟨.regex tensorrtPat, some c.cuda_with_tensorrt.str⟩ ]
             ++ (if c.cuda_with_tensorrt.toBool then
                   [⟨.regex tensorrtPathPat, c.cuda_tensorrt_path⟩] else [])
             ++ [ ⟨.regex ncclPat, c.cuda_nccl_version⟩,
                  ⟨.regex capsPat, some (cudaCapabilitiesJoin caps)⟩,
                  ⟨.regex clangPat, some c.cuda_with_clang.str⟩,
                  ⟨.regex gccPat, c.cuda_gcc_path⟩ ])

/-- The MPI prompt and conditional MPI path prompt of `run()`. -/
def PexpectTensorFlowConfigure.mpiSteps (c : PexpectTensorFlowConfigure) : List Step :=
  ⟨.regex mpiPat, some c.with_mpi.str⟩ ::
    (if c.with_mpi.toBool then [⟨.regex mpiPathPat, c.mpi_path⟩] else [])

/-- The last four steps of `run()`: optimization flags, the Android prompt
(answered with the literal N), the completion marker, end-of-stream. -/
def PexpectTensorFlowConfigure.tailSteps (c : PexpectTensorFlowConfigure) : List Step :=
  [ ⟨.regex optsPat, some c.opts_flags_str⟩,
    ⟨.regex androidPat, some "N"⟩,
    ⟨.regex finishedPat, none⟩,
    ⟨.eof, none⟩ ]

/-- Embedding of `run()`: the full prompt/answer trace the driver performs
when every expect call matches, or the error raised while producing it
(missing interpreter paths, or the unimplemented clang branch). -/
def PexpectTensorFlowConfigure.run (c : PexpectTensorFlowConfigure)
    (pathExists : String → Bool) : Except String (List Step) :=
  match c.python_bin_path pathExists with
  | .error e => .error e
  | .ok pbin =>
    match c.python_dist_path pathExists with
    | .error e => .error e
    | .ok pdist =>
      match c.cudaBranch with
      | .error e => .error e
      | .ok cudaSteps =>
        .ok (c.headSteps pbin pdist ++ cudaSteps ++ c.mpiSteps ++ c.tailSteps)

/-- The whole program on given parameters: validate and construct
(`__init__`), then drive the wizard (`run`).  A validation error means
`run` is never reached, hence no child process is ever spawned. -/
def runAll (p : Params) (pathExists : String → Bool) : Except String (List Step) :=
  match PexpectTensorFlowConfigure.init p pathExists with
  | .error e => .error e
  | .ok c => c.run pathExists

/-- The GPU sub-fields whose presence (and, for paths, existence) the
constructor requires when the CUDA flag is set. -/
inductive GpuField where
  | version
  | path
  | cudnn_version
  | cudnn_path
  | nccl_version
  | capabilities
  | gcc_path
  | tensorrt_path
deriving DecidableEq

/-- A GPU sub-field is bad when it is absent or (for path fields) names a
non-existent path; the TensorRT path only counts when TensorRT is also
requested. -/
def gpuFieldBad (fs : String → Bool) (p : Params) : GpuField → Bool
  | .version => p.cuda_version.isNone
  | .path => p.cuda_path.isNone || !(fs (p.cuda_path.getD ""))
  | .cudnn_version => p.cuda_cudnn_version.isNone
  | .cudnn_path => p.cuda_cudnn_path.isNone || !(fs (p.cuda_cudnn_path.getD ""))
  | .nccl_version => p.cuda_nccl_version.isNone
  | .capabilities => p.cuda_capabilities.isNone
  | .gcc_path => p.cuda_gcc_path.isNone || !(fs (p.cuda_gcc_path.getD ""))
  | .tensorrt_path => p.cuda_with_tensorrt && (p.cuda_tensorrt_path.isNone || !(fs (p.cuda_tensorrt_path.getD "")))

/-- The attribute name of each GPU sub-field. -/
def gpuFieldName : GpuField → String
  | .version => "cuda_version"
  | .path => "cuda_path"
  | .cudnn_version => "cuda_cudnn_version"
  | .cudnn_path => "cuda_cudnn_path"
  | .nccl_version => "cuda_nccl_version"
  | .capabilities => "cuda_capabilities"
  | .gcc_path => "cuda_gcc_path"
  | .tensorrt_path => "cuda_tensorrt_path"

/-- The assert message reported for a bad GPU sub-field: the missing-value
message when the field is absent, otherwise the non-existing-path
message. -/
def gpuBadMsg (p : Params) : GpuField → String
  | .version => "cuda_version must be set if with_cuda=True"
  | .path =>
    if p.cuda_path.isNone then "cuda_path must be set if with_cuda=True"
    else "cuda_path is set a non existing folder"
  | .cudnn_version => "cuda_cudnn_version must be set if with_cuda=True"
  | .cudnn_path =>
    if p.cuda_cudnn_path.isNone then "cuda_cudnn_path must be set if with_cuda=True"
    else "cuda_cudnn_path is set a non existing folder"
  | .nccl_version => "cuda_nccl_version must be set if with_cuda=True"
  | .capabilities => "cuda_capabilities must be set if with_cuda=True"
  | .gcc_path =>
    if p.cuda_gcc_path.isNone then "cuda_gcc_path must be set if with_cuda=True"
    else "cuda_gcc_path is set a non existing file"
  | .tensorrt_path =>
    if p.cuda_tensorrt_path.isNone then "cuda_tensorrt_path must be set if cuda_with_tensorrt=True"
    else "cuda_tensorrt_path is set a non existing folder"

/-- The fixed pattern skeleton of the prompt sequence: which prompts are
visited is decided solely by the CUDA, TensorRT and MPI booleans (the
clang flag cannot be true on a validated configuration). -/
def patternSeq (cuda trt mpi : Bool) : List Pattern :=
  [ .regex pythonBinPat, .regex pythonLibPat, .regex jemallocPat, .regex gcpPat,
    .regex hdfsPat, .regex s3Pat, .regex kafkaPat, .regex xlaPat, .regex gdrPat,
    .regex verbsPat, .regex syclPat, .regex cudaPat ]
  ++ (if cuda then
        [ .regex cudaVersionPat, .regex cudaPathPat, .regex cudnnVersionPat,
          .regex cudnnPathPat, .regex tensorrtPat ]
        ++ (if trt then [Pattern.regex tensorrtPathPat] else [])
        ++ [ .regex ncclPat, .regex capsPat, .regex clangPat, .regex gccPat ]
      else [Pattern.regex freshClangPat])
  ++ [Pattern.regex mpiPat]
  ++ (if mpi then [Pattern.regex mpiPathPat] else [])
  ++ [ .regex optsPat, .regex androidPat, .regex finishedPat, .eof ]

/-- A filesystem on which every path exists. -/
def fsTrue : String → Bool := fun _ => true

/-- A filesystem on which every path except "/missing" exists. -/
def fsMiss : String → Bool := fun s => !(s == "/missing")

/-- A filesystem on which only the configure command exists. -/
def fsCmdOnly : String → Bool := fun s => s == "/src/configure"

/-- A minimal parameter set: all feature flags false, no GPU, no MPI, no
optimization flags. -/
def pMin : Params :=
  { command := "/src/configure"
    python_version := "3.6"
    with_jemalloc := false
    with_google_cloud_platform := false
    with_hdfs := false
    with_amazon_s3 := false
    with_kafka := false
    with_xla_jit := false
    with_gdr := false
    with_verbs := false
    with_opencl_sycl := false
    with_cuda := false
    with_fresh_clang := false
    with_mpi := false
    cuda_version := none
    cuda_path := none
    cuda_cudnn_version := none
    cuda_cudnn_path := none
    cuda_with_tensorrt := false
    cuda_tensorrt_path := none
    cuda_nccl_version := none
    cuda_capabilities := none
    cuda_with_clang := false
    cuda_gcc_path := none
    mpi_path := none
    opts_flags := none }

/-- A fully populated, valid GPU parameter set (no TensorRT, no MPI). -/
def pGpu : Params :=
  { pMin with
    with_cuda := true
    cuda_version := some "9.0"
    cuda_path := some "/usr/local/cuda"
    cuda_cudnn_version := some "7.0"
    cuda_cudnn_path := some "/usr/local/cuda"
    cuda_nccl_version := some "1.3"
    cuda_capabilities := some ["3.5", " 5.2 "]
    cuda_gcc_path := some "/usr/bin/gcc" }

/-- The configuration object built from `pGpu`. -/
def cGpu : PexpectTensorFlowConfigure := PexpectTensorFlowConfigure.ofParams pGpu

/-- The full prompt/answer trace of `cGpu` on a filesystem where every
path exists. -/
def stepsGpu : List Step :=
  [ ⟨.regex pythonBinPat, some "/usr/bin/python3.6"⟩,
    ⟨.regex pythonLibPat, some "/usr/lib/python3/dist-packages"⟩,
    ⟨.regex jemallocPat, some "N"⟩,
    ⟨.regex gcpPat, some "N"⟩,
    ⟨.regex hdfsPat, some "N"⟩,
    ⟨.regex s3Pat, some "N"⟩,
    ⟨.regex kafkaPat, some "N"⟩,
    ⟨.regex xlaPat, some "N"⟩,
    ⟨.regex gdrPat, some "N"⟩,
    ⟨.regex verbsPat, some "N"⟩,
    ⟨.regex syclPat, some "N"⟩,
    ⟨.regex cudaPat, some "Y"⟩,
    ⟨.regex cudaVersionPat, some "9.0"⟩,
    ⟨.regex cudaPathPat, some "/usr/local/cuda"⟩,
    ⟨.regex cudnnVersionPat, some "7.0"⟩,
    ⟨.regex cudnnPathPat, some "/usr/local/cuda"⟩,
    ⟨.regex tensorrtPat, some "N"⟩,
    ⟨.regex ncclPat, some "1.3"⟩,
    ⟨.regex capsPat, some "3.5,5.2"⟩,
    ⟨.regex clangPat, some "N"⟩,
    ⟨.regex gccPat, some "/usr/bin/gcc"⟩,
    ⟨.regex mpiPat, some "N"⟩,
    ⟨.regex optsPat, some ""⟩,
    ⟨.regex androidPat, some "N"⟩,
    ⟨.regex finishedPat, none⟩,
    ⟨.eof, none⟩ ]

/-- `pGpu` with the CUDA toolkit path pointing at a missing location. -/
def pGpuMiss : Params := { pGpu with cuda_path := some "/missing" }

/-- GPU-field junk on a CUDA-disabled configuration: every GPU field is
populated with values that do not exist on `fsCmdOnly`. -/
def pNoGpuJunk : Params :=
  { pMin with
    cuda_version := some ""
    cuda_path := some "/nowhere/cuda"
    cuda_cudnn_version := some ""
    cuda_cudnn_path := some "/nowhere/cudnn"
    cuda_with_tensorrt := true
    cuda_tensorrt_path := some "/nowhere/trt"
    cuda_nccl_version := some ""
    cuda_capabilities := some []
    cuda_gcc_path := some "/nowhere/gcc" }

/-- The minimal parameters with the heterogeneous-compute flag set. -/
def pSycl : Params := { pMin with with_opencl_sycl := true }

/-- The minimal parameters with the optimization flags from the spec's
worked example. -/
def pOptsEx : Params := { pMin with opts_flags := some [" -march=native", " -mavx2"] }

/-- The minimal parameters with the compute-capability list from the
spec's worked example. -/
def pCapsEx : Params := { pMin with cuda_capabilities := some ["3.5", " 5.2 "] }

lemma and_or_false_left (a b c : Bool) (h : (a && (b || c)) = false) : (a && b) = false := by
  cases a <;> cases b <;> cases c <;> simp_all

lemma and_or_false_right (a b c : Bool) (h : (a && (b || c)) = false) : (a && c) = false := by
  cases a <;> cases b <;> cases c <;> simp_all

/-- C1: for the minimal configuration (all feature flags false, GPU false,
MPI false, existing command path, valid interpreter version), run() visits
the prompts in exactly the documented order: interpreter binary prompt,
interpreter library prompt, the nine yes/no feature prompts answered N,
the GPU prompt answered N, the fresh-clang-download prompt answered N
(the GPU branch skipped), the MPI prompt answered N (MPI path skipped),
the optimization-flags prompt answered with the empty string, the
mobile/Android prompt answered N, then the completion marker and
end-of-stream with no answer, terminating successfully. -/
theorem claim1_minimal_run_order (p : Params) (fs : String → Bool)
    (hjem : p.with_jemalloc = false) (hgcp : p.with_google_cloud_platform = false)
    (hhdfs : p.with_hdfs = false) (hs3 : p.with_amazon_s3 = false)
    (hkafka : p.with_kafka = false) (hxla : p.with_xla_jit = false)
    (hgdr : p.with_gdr = false) (hverbs : p.with_verbs = false)
    (hsycl : p.with_opencl_sycl = false) (hcuda : p.with_cuda = false)
    (hclang : p.cuda_with_clang = false) (hfresh : p.with_fresh_clang = false)
    (hmpi : p.with_mpi = false) (hopts : p.opts_flags = none)
    (hcmd : fs p.command = true)
    (hbin : fs ("/usr/bin/python" ++ p.python_version) = true)
    (hlib : fs (pythonDistPathStr p.python_version) = true) :
    runAll p fs = .ok
      [ ⟨.regex pythonBinPat, some ("/usr/bin/python" ++ p.python_version)⟩,
        ⟨.regex pythonLibPat, some (pythonDistPathStr p.python_version)⟩,
        ⟨.regex jemallocPat, some "N"⟩,
        ⟨.regex gcpPat, some "N"⟩,
        ⟨.regex hdfsPat, some "N"⟩,
        ⟨.regex s3Pat, some "N"⟩,
        ⟨.regex kafkaPat, some "N"⟩,
        ⟨.regex xlaPat, some "N"⟩,
        ⟨.regex gdrPat, some "N"⟩,
        ⟨.regex verbsPat, some "N"⟩,
        ⟨.regex syclPat, some "N"⟩,
        ⟨.regex cudaPat, some "N"⟩,
        ⟨.regex freshClangPat, some "N"⟩,
        ⟨.regex mpiPat, some "N"⟩,
        ⟨.regex optsPat, some ""⟩,
        ⟨.regex androidPat, some "N"⟩,
        ⟨.regex finishedPat, none⟩,
        ⟨.eof, none⟩ ] := by
  simp [runAll, PexpectTensorFlowConfigure.init, checkCuda, checkMpi,
        PexpectTensorFlowConfigure.ofParams, PexpectTensorFlowConfigure.run,
        PexpectTensorFlowConfigure.python_bin_path, PexpectTensorFlowConfigure.python_dist_path,
        PexpectTensorFlowConfigure.cudaBranch, PexpectTensorFlowConfigure.headSteps,
        PexpectTensorFlowConfigure.mpiSteps, PexpectTensorFlowConfigure.tailSteps,
        PexpectTensorFlowConfigure.opts_flags_str, bool_y_n.toBool, bool_y_n.str,
        hjem, hgcp, hhdfs, hs3, hkafka, hxla, hgdr, hverbs, hsycl, hcuda, hclang,
        hfresh, hmpi, hopts, hcmd, hbin, hlib]

/-- Witness for C1: the minimal parameter set on a filesystem where every
path exists yields exactly the documented eighteen-step trace. -/
theorem claim1_minimal_run_order_w :
    runAll pMin fsTrue = .ok
      [ ⟨.regex pythonBinPat, some ("/usr/bin/python" ++ pMin.python_version)⟩,
        ⟨.regex pythonLibPat, some (pythonDistPathStr pMin.python_version)⟩,
        ⟨.regex jemallocPat, some "N"⟩,
        ⟨.regex gcpPat, some "N"⟩,
        ⟨.regex hdfsPat, some "N"⟩,
        ⟨.regex s3Pat, some "N"⟩,
        ⟨.regex kafkaPat, some "N"⟩,
        ⟨.regex xlaPat, some "N"⟩,
        ⟨.regex gdrPat, some "N"⟩,
        ⟨.regex verbsPat, some "N"⟩,
        ⟨.regex syclPat, some "N"⟩,
        ⟨.regex cudaPat, some "N"⟩,
        ⟨.regex freshClangPat, some "N"⟩,
        ⟨.regex mpiPat, some "N"⟩,
        ⟨.regex optsPat, some ""⟩,
        ⟨.regex androidPat, some "N"⟩,
        ⟨.regex finishedPat, none⟩,
        ⟨.eof, none⟩ ] :=
  claim1_minimal_run_order pMin fsTrue rfl rfl rfl rfl rfl rfl rfl rfl rfl rfl rfl rfl
    rfl rfl rfl rfl rfl

/-- C2: with the GPU flag set (and the earlier checks passing: existing
command path, heterogeneous-compute and alternate-compiler flags unset),
if exactly one required GPU sub-field is bad - absent, or for a path
field pointing at a non-existent location, the TensorRT path counting
only when TensorRT is requested - construction fails with the assert
message naming that sub-field, and run() is never reached, so no child
process is spawned. -/
theorem claim2_gpu_field_validation (p : Params) (fs : String → Bool) (F : GpuField)
    (hcmd : fs p.command = true) (hsycl : p.with_opencl_sycl = false)
    (hclang : p.cuda_with_clang = false) (hcuda : p.with_cuda = true)
    (hbad : gpuFieldBad fs p F = true)
    (hgood : ∀ G : GpuField, G ≠ F → gpuFieldBad fs p G = false) :
    PexpectTensorFlowConfigure.init p fs = .error (gpuBadMsg p F) ∧
    runAll p fs = .error (gpuBadMsg p F) ∧
    ∃ rest, gpuBadMsg p F = gpuFieldName F ++ rest := by
  cases F with
  | version =>
    have hpath := hgood .path (by decide)
    have hcv := hgood .cudnn_version (by decide)
    have hcp := hgood .cudnn_path (by decide)
    have hnc := hgood .nccl_version (by decide)
    have hca := hgood .capabilities (by decide)
    have hgc := hgood .gcc_path (by decide)
    have htr0 := hgood .tensorrt_path (by decide)
    simp only [gpuFieldBad, Bool.or_eq_false_iff, Bool.not_eq_false] at hpath hcv hcp hnc hca hgc htr0
    have htr1 := and_or_false_left _ _ _ htr0
    have htr2 := and_or_false_right _ _ _ htr0
    simp only [gpuFieldBad] at hbad
    have hmsg : gpuBadMsg p .version = "cuda_version must be set if with_cuda=True" := rfl
    rw [hmsg]
    refine ⟨?_, ?_, ⟨" must be set if with_cuda=True", by decide⟩⟩ <;>
      simp [runAll, PexpectTensorFlowConfigure.init, checkCuda, gpuBadMsg, hcmd, hsycl, hclang, hcuda, hbad, hpath, hcv, hcp, hnc, hca, hgc, htr1, htr2]
  | path =>
    have hver := hgood .version (by decide)
    have hcv := hgood .cudnn_version (by decide)
    have hcp := hgood .cudnn_path (by decide)
    have hnc := hgood .nccl_version (by decide)
    have hca := hgood .capabilities (by decide)
    have hgc := hgood .gcc_path (by decide)
    have htr0 := hgood .tensorrt_path (by decide)
    simp only [gpuFieldBad, Bool.or_eq_false_iff, Bool.not_eq_false] at hver hcv hcp hnc hca hgc htr0
    have htr1 := and_or_false_left _ _ _ htr0
    have htr2 := and_or_false_right _ _ _ htr0
    simp only [gpuFieldBad] at hbad
    by_cases hnone : p.cuda_path.isNone
    · have hmsg : gpuBadMsg p .path = "cuda_path must be set if with_cuda=True" := by
        simp [gpuBadMsg, hnone]
      rw [hmsg]
      refine ⟨?_, ?_, ⟨" must be set if with_cuda=True", by decide⟩⟩ <;>
        simp [runAll, PexpectTensorFlowConfigure.init, checkCuda, gpuBadMsg, hcmd, hsycl, hclang, hcuda, hnone, hver, hcv, hcp, hnc, hca, hgc, htr1, htr2]
    · have hex : fs (p.cuda_path.getD "") = false := by
        rcases Bool.or_eq_true_iff.mp hbad with h | h
        · exact absurd h (by simp [hnone])
        · simpa using h
      have hmsg : gpuBadMsg p .path = "cuda_path is set a non existing folder" := by
        simp [gpuBadMsg, hnone]
      rw [hmsg]
      refine ⟨?_, ?_, ⟨" is set a non existing folder", by decide⟩⟩ <;>
        simp [runAll, PexpectTensorFlowConfigure.init, checkCuda, gpuBadMsg, hcmd, hsycl, hclang, hcuda, hnone, hex, hver, hcv, hcp, hnc, hca, hgc, htr1, htr2]
  | cudnn_version =>
    have hver := hgood .version (by decide)
    have hpath := hgood .path (by decide)
    have hcp := hgood .cudnn_path (by decide)
    have hnc := hgood .nccl_version (by decide)
    have hca := hgood .capabilities (by decide)
    have hgc := hgood .gcc_path (by decide)
    have htr0 := hgood .tensorrt_path (by decide)
    simp only [gpuFieldBad, Bool.or_eq_false_iff, Bool.not_eq_false] at hver hpath hcp hnc hca hgc htr0
    have htr1 := and_or_false_left _ _ _ htr0
    have htr2 := and_or_false_right _ _ _ htr0
    simp only [gpuFieldBad] at hbad
    have hmsg : gpuBadMsg p .cudnn_version = "cuda_cudnn_version must be set if with_cuda=True" := rfl
    rw [hmsg]
    refine ⟨?_, ?_, ⟨" must be set if with_cuda=True", by decide⟩⟩ <;>
      simp [runAll, PexpectTensorFlowConfigure.init, checkCuda, gpuBadMsg, hcmd, hsycl, hclang, hcuda, hbad, hver, hpath, hcp, hnc, hca, hgc, htr1, htr2]
  | cudnn_path =>
    have hver := hgood .version (by decide)
    have hpath := hgood .path (by decide)
    have hcv := hgood .cudnn_version (by decide)
    have hnc := hgood .nccl_version (by decide)
    have hca := hgood .capabilities (by decide)
    have hgc := hgood .gcc_path (by decide)
    have htr0 := hgood .tensorrt_path (by decide)
    simp only [gpuFieldBad, Bool.or_eq_false_iff, Bool.not_eq_false] at hver hpath hcv hnc hca hgc htr0
    have htr1 := and_or_false_left _ _ _ htr0
    have htr2 := and_or_false_right _ _ _ htr0
    simp only [gpuFieldBad] at hbad
    by_cases hnone : p.cuda_cudnn_path.isNone
    · have hmsg : gpuBadMsg p .cudnn_path = "cuda_cudnn_path must be set if with_cuda=True" := by
        simp [gpuBadMsg, hnone]
      rw [hmsg]
      refine ⟨?_, ?_, ⟨" must be set if with_cuda=True", by decide⟩⟩ <;>
        simp [runAll, PexpectTensorFlowConfigure.init, checkCuda, gpuBadMsg, hcmd, hsycl, hclang, hcuda, hnone, hver, hpath, hcv, hnc, hca, hgc, htr1, htr2]
    · have hex : fs (p.cuda_cudnn_path.getD "") = false := by
        rcases Bool.or_eq_true_iff.mp hbad with h | h
        · exact absurd h (by simp [hnone])
        · simpa using h
      have hmsg : gpuBadMsg p .cudnn_path = "cuda_cudnn_path is set a non existing folder" := by
        simp [gpuBadMsg, hnone]
      rw [hmsg]
      refine ⟨?_, ?_, ⟨" is set a non existing folder", by decide⟩⟩ <;>
        simp [runAll, PexpectTensorFlowConfigure.init, checkCuda, gpuBadMsg, hcmd, hsycl, hclang, hcuda, hnone, hex, hver, hpath, hcv, hnc, hca, hgc, htr1, htr2]
  | nccl_version =>
    have hver := hgood .version (by decide)
    have hpath := hgood .path (by decide)
    have hcv := hgood .cudnn_version (by decide)
    have hcp := hgood .cudnn_path (by decide)
    have hca := hgood .capabilities (by decide)
    have hgc := hgood .gcc_path (by decide)
    have htr0 := hgood .tensorrt_path (by decide)
    simp only [gpuFieldBad, Bool.or_eq_false_iff, Bool.not_eq_false] at hver hpath hcv hcp hca hgc htr0
    have htr1 := and_or_false_left _ _ _ htr0
    have htr2 := and_or_false_right _ _ _ htr0
    simp only [gpuFieldBad] at hbad
    have hmsg : gpuBadMsg p .nccl_version = "cuda_nccl_version must be set if with_cuda=True" := rfl
    rw [hmsg]
    refine ⟨?_, ?_, ⟨" must be set if with_cuda=True", by decide⟩⟩ <;>
      simp [runAll, PexpectTensorFlowConfigure.init, checkCuda, gpuBadMsg, hcmd, hsycl, hclang, hcuda, hbad, hver, hpath, hcv, hcp, hca, hgc, htr1, htr2]
  | capabilities =>
    have hver := hgood .version (by decide)
    have hpath := hgood .path (by decide)
    have hcv := hgood .cudnn_version (by decide)
    have hcp := hgood .cudnn_path (by decide)
    have hnc := hgood .nccl_version (by decide)
    have hgc := hgood .gcc_path (by decide)
    have htr0 := hgood .tensorrt_path (by decide)
    simp only [gpuFieldBad, Bool.or_eq_false_iff, Bool.not_eq_false] at hver hpath hcv hcp hnc hgc htr0
    have htr1 := and_or_false_left _ _ _ htr0
    have htr2 := and_or_false_right _ _ _ htr0
    simp only [gpuFieldBad] at hbad
    have hmsg : gpuBadMsg p .capabilities = "cuda_capabilities must be set if with_cuda=True" := rfl
    rw [hmsg]
    refine ⟨?_, ?_, ⟨" must be set if with_cuda=True", by decide⟩⟩ <;>
      simp [runAll, PexpectTensorFlowConfigure.init, checkCuda, gpuBadMsg, hcmd, hsycl, hclang, hcuda, hbad, hver, hpath, hcv, hcp, hnc, hgc, htr1, htr2]
  | gcc_path =>
    have hver := hgood .version (by decide)
    have hpath := hgood .path (by decide)
    have hcv := hgood .cudnn_version (by decide)
    have hcp := hgood .cudnn_path (by decide)
    have hnc := hgood .nccl_version (by decide)
    have hca := hgood .capabilities (by decide)
    have htr0 := hgood .tensorrt_path (by decide)
    simp only [gpuFieldBad, Bool.or_eq_false_iff, Bool.not_eq_false] at hver hpath hcv hcp hnc hca htr0
    have htr1 := and_or_false_left _ _ _ htr0
    have htr2 := and_or_false_right _ _ _ htr0
    simp only [gpuFieldBad] at hbad
    by_cases hnone : p.cuda_gcc_path.isNone
    · have hmsg : gpuBadMsg p .gcc_path = "cuda_gcc_path must be set if with_cuda=True" := by
        simp [gpuBadMsg, hnone]
      rw [hmsg]
      refine ⟨?_, ?_, ⟨" must be set if with_cuda=True", by decide⟩⟩ <;>
        simp [runAll, PexpectTensorFlowConfigure.init, checkCuda, gpuBadMsg, hcmd, hsycl, hclang, hcuda, hnone, hver, hpath, hcv, hcp, hnc, hca, htr1, htr2]
    · have hex : fs (p.cuda_gcc_path.getD "") = false := by
        rcases Bool.or_eq_true_iff.mp hbad with h | h
        · exact absurd h (by simp [hnone])
        · simpa using h
      have hmsg : gpuBadMsg p .gcc_path = "cuda_gcc_path is set a non existing file" := by
        simp [gpuBadMsg, hnone]
      rw [hmsg]
      refine ⟨?_, ?_, ⟨" is set a non existing file", by decide⟩⟩ <;>
        simp [runAll, PexpectTensorFlowConfigure.init, checkCuda, gpuBadMsg, hcmd, hsycl, hclang, hcuda, hnone, hex, hver, hpath, hcv, hcp, hnc, hca, htr1, htr2]
  | tensorrt_path =>
    have hver := hgood .version (by decide)
    have hpath := hgood .path (by decide)
    have hcv := hgood .cudnn_version (by decide)
    have hcp := hgood .cudnn_path (by decide)
    have hnc := hgood .nccl_version (by decide)
    have hca := hgood .capabilities (by decide)
    have hgc := hgood .gcc_path (by decide)
    simp only [gpuFieldBad, Bool.or_eq_false_iff, Bool.not_eq_false] at hver hpath hcv hcp hnc hca hgc
    simp only [gpuFieldBad] at hbad
    have htrton : p.cuda_with_tensorrt = true := (Bool.and_eq_true_iff.mp hbad).1
    have hbad2 := (Bool.and_eq_true_iff.mp hbad).2
    by_cases hnone : p.cuda_tensorrt_path.isNone
    · have hmsg : gpuBadMsg p .tensorrt_path = "cuda_tensorrt_path must be set if cuda_with_tensorrt=True" := by
        simp [gpuBadMsg, hnone]
      rw [hmsg]
      refine ⟨?_, ?_, ⟨" must be set if cuda_with_tensorrt=True", by decide⟩⟩ <;>
        simp [runAll, PexpectTensorFlowConfigure.init, checkCuda, gpuBadMsg, hcmd, hsycl, hclang, hcuda, hnone, htrton, hver, hpath, hcv, hcp, hnc, hca, hgc]
    · have hex : fs (p.cuda_tensorrt_path.getD "") = false := by
        rcases Bool.or_eq_true_iff.mp hbad2 with h | h
        · exact absurd h (by simp [hnone])
        · simpa using h
      have hmsg : gpuBadMsg p .tensorrt_path = "cuda_tensorrt_path is set a non existing folder" := by
        simp [gpuBadMsg, hnone]
      rw [hmsg]
      refine ⟨?_, ?_, ⟨" is set a non existing folder", by decide⟩⟩ <;>
        simp [runAll, PexpectTensorFlowConfigure.init, checkCuda, gpuBadMsg, hcmd, hsycl, hclang, hcuda, hnone, hex, htrton, hver, hpath, hcv, hcp, hnc, hca, hgc]

/-- Witness for C2: a GPU configuration whose toolkit path points at a
missing location fails construction with the message naming cuda_path. -/
theorem claim2_gpu_field_validation_w :
    PexpectTensorFlowConfigure.init pGpuMiss fsMiss = .error (gpuBadMsg pGpuMiss .path) ∧
    runAll pGpuMiss fsMiss = .error (gpuBadMsg pGpuMiss .path) ∧
    ∃ rest, gpuBadMsg pGpuMiss .path = gpuFieldName .path ++ rest :=
  claim2_gpu_field_validation pGpuMiss fsMiss .path (by decide) (by decide) (by decide)
    (by decide) (by decide)
    (by intro G hG; cases G <;> first | exact absurd rfl hG | decide)

/-- C3: with the GPU flag unset (given an existing command path, the
heterogeneous-compute and alternate-compiler flags unset, and the MPI
constraint satisfied), construction succeeds for every possible content
of the GPU-specific fields: none of them is inspected or required to
exist. -/
theorem claim3_no_gpu_validation (p : Params) (fs : String → Bool)
    (hcuda : p.with_cuda = false) (hcmd : fs p.command = true)
    (hsycl : p.with_opencl_sycl = false) (hclang : p.cuda_with_clang = false)
    (hmpi : p.with_mpi = true → ∃ mp, p.mpi_path = some mp ∧ fs mp = true) :
    PexpectTensorFlowConfigure.init p fs = .ok (PexpectTensorFlowConfigure.ofParams p) := by
  by_cases hm : p.with_mpi = true
  · rcases hmpi hm with ⟨mp, hmp, hfs⟩
    simp [PexpectTensorFlowConfigure.init, checkCuda, checkMpi,
          hcuda, hcmd, hsycl, hclang, hm, hmp, hfs]
  · simp at hm
    simp [PexpectTensorFlowConfigure.init, checkCuda, checkMpi,
          hcuda, hcmd, hsycl, hclang, hm]

/-- Witness for C3: a CUDA-disabled configuration whose GPU fields are all
populated with junk pointing at non-existent locations still constructs
successfully. -/
theorem claim3_no_gpu_validation_w :
    PexpectTensorFlowConfigure.init pNoGpuJunk fsCmdOnly =
      .ok (PexpectTensorFlowConfigure.ofParams pNoGpuJunk) :=
  claim3_no_gpu_validation pNoGpuJunk fsCmdOnly rfl (by decide) rfl rfl
    (fun h => Bool.noConfusion h)

/-- Counterexample to C4 as stated: with the heterogeneous-compute flag
set but a command path that does not exist, construction fails with the
command-path assert message, which is not a not-implemented error - so
the failure message is not independent of the other field values. -/
theorem claim4_counterexample :
    PexpectTensorFlowConfigure.init pSycl (fun _ => false) =
      .error "command must be a valid path to TensorFlow configure script" ∧
    pSycl.with_opencl_sycl = true ∧
    "command must be a valid path to TensorFlow configure script" ≠
      "with_opencl_sycl=True is not implemented" ∧
    "command must be a valid path to TensorFlow configure script" ≠
      "cuda_with_clang=True is not implemented" :=
  ⟨rfl, rfl, by decide, by decide⟩

/-- C4 amended: when the heterogeneous-compute or alternate-GPU-compiler
flag is set and the command path exists (the command check runs first),
construction fails with the corresponding not-implemented error,
independent of all remaining field values, and run() is never reached,
so no child process is spawned. -/
theorem claim4_unimplemented_flags (p : Params) (fs : String → Bool)
    (hcmd : fs p.command = true)
    (h : p.with_opencl_sycl = true ∨ p.cuda_with_clang = true) :
    PexpectTensorFlowConfigure.init p fs =
      .error (if p.with_opencl_sycl then "with_opencl_sycl=True is not implemented"
              else "cuda_with_clang=True is not implemented") ∧
    runAll p fs =
      .error (if p.with_opencl_sycl then "with_opencl_sycl=True is not implemented"
              else "cuda_with_clang=True is not implemented") := by
  by_cases hs : p.with_opencl_sycl = true
  · constructor <;> simp [runAll, PexpectTensorFlowConfigure.init, hcmd, hs]
  · simp at hs
    rcases h with h | h
    · exact absurd h (by simp [hs])
    · constructor <;> simp [runAll, PexpectTensorFlowConfigure.init, hcmd, hs, h]

/-- Witness for C4 amended: the heterogeneous-compute flag on an existing
command path fails with its not-implemented message before any spawn. -/
theorem claim4_unimplemented_flags_w :
    PexpectTensorFlowConfigure.init pSycl fsTrue =
      .error (if pSycl.with_opencl_sycl then "with_opencl_sycl=True is not implemented"
              else "cuda_with_clang=True is not implemented") ∧
    runAll pSycl fsTrue =
      .error (if pSycl.with_opencl_sycl then "with_opencl_sycl=True is not implemented"
              else "cuda_with_clang=True is not implemented") :=
  claim4_unimplemented_flags pSycl fsTrue rfl (Or.inl rfl)

/-- Counterexample to C6 as stated: on the flags list of the spec's worked
example, the rendering does not return the claimed string with leading and
doubled inner spaces - stripping removes the leading spaces first. -/
theorem claim6_counterexample :
    (PexpectTensorFlowConfigure.ofParams pOptsEx).opts_flags_str ≠
      " -march=native  -mavx2" := by decide

/-- C6 amended: the space-joined optimization-flags rendering trims each
element of leading/trailing whitespace and joins with a single space; on
the input list with elements " -march=native" and " -mavx2" it returns
exactly "-march=native -mavx2" (leading spaces stripped), and it returns
the empty string when no flags were supplied. -/
theorem claim6_opts_flags_str :
    (PexpectTensorFlowConfigure.ofParams pOptsEx).opts_flags_str = "-march=native -mavx2" ∧
    (PexpectTensorFlowConfigure.ofParams pMin).opts_flags_str = "" :=
  ⟨by decide, rfl⟩

/-- C7: the boolean-to-yes/no serialization is total: every wrapped value
renders as exactly the single character Y or N (never "true"/"false"),
with true rendering as Y and false as N. -/
theorem claim7_bool_y_n_serialization (b : bool_y_n) :
    (b.str = "Y" ∨ b.str = "N") ∧ b.str.length = 1 ∧
    bool_y_n.str ⟨true⟩ = "Y" ∧ bool_y_n.str ⟨false⟩ = "N" := by
  obtain ⟨v⟩ := b
  cases v
  · exact ⟨Or.inr rfl, rfl, rfl, rfl⟩
  · exact ⟨Or.inl rfl, rfl, rfl, rfl⟩

/-- C8: the comma-joined compute-capability rendering trims each element
and joins the elements with commas: on the list with elements "3.5" and
" 5.2 " it returns exactly "3.5,5.2", both as the bare join and through
the configuration property. -/
theorem claim8_cuda_capabilities_str :
    cudaCapabilitiesJoin ["3.5", " 5.2 "] = "3.5,5.2" ∧
    (PexpectTensorFlowConfigure.ofParams pCapsEx).cuda_capabilities_str = .ok "3.5,5.2" :=
  ⟨by decide, rfl⟩

/-- C9: on every successfully constructed configuration the
NotImplementedError branch of run() for the use-clang-as-CUDA-compiler
prompt is unreachable: the constructor rejects the clang flag, so the
stored flag is false, and whenever the GPU branch is taken the clang
prompt is answered N and is immediately followed by the host-compiler
(gcc) path prompt. -/
theorem claim9_clang_branch_unreachable (p : Params) (fs : String → Bool)
    (c : PexpectTensorFlowConfigure)
    (hinit : PexpectTensorFlowConfigure.init p fs = .ok c) :
    c.cuda_with_clang.toBool = false ∧
    ∀ steps, c.run fs = .ok steps → c.with_cuda.toBool = true →
      ∃ l r, steps = l ++ [⟨.regex clangPat, some "N"⟩, ⟨.regex gccPat, c.cuda_gcc_path⟩] ++ r := by
  unfold PexpectTensorFlowConfigure.init at hinit
  split at hinit
  · simp at hinit
  split at hinit
  · simp at hinit
  split at hinit
  · simp at hinit
  next hclang' =>
  split at hinit
  · simp at hinit
  split at hinit
  · simp at hinit
  injection hinit with hc
  subst hc
  have hclangF : p.cuda_with_clang = false := by simpa using hclang'
  refine ⟨by simp [PexpectTensorFlowConfigure.ofParams, bool_y_n.toBool, hclangF], ?_⟩
  intro steps hrun hcudaT
  have hcu : p.with_cuda = true := by
    simpa [PexpectTensorFlowConfigure.ofParams, bool_y_n.toBool] using hcudaT
  unfold PexpectTensorFlowConfigure.run at hrun
  split at hrun
  · simp at hrun
  next pbin hpb =>
  split at hrun
  · simp at hrun
  next pdist hpd =>
  split at hrun
  · simp at hrun
  next cudaSteps hbr =>
  have hsteps : (PexpectTensorFlowConfigure.ofParams p).headSteps pbin pdist ++ cudaSteps ++
      (PexpectTensorFlowConfigure.ofParams p).mpiSteps ++
      (PexpectTensorFlowConfigure.ofParams p).tailSteps = steps := by
    injection hrun
  unfold PexpectTensorFlowConfigure.cudaBranch at hbr
  simp only [PexpectTensorFlowConfigure.ofParams, bool_y_n.toBool, hcu, hclangF,
    Bool.not_true, if_false] at hbr
  cases hcaps : p.cuda_capabilities with
  | none => rw [hcaps] at hbr; simp at hbr
  | some caps =>
    rw [hcaps] at hbr
    simp only [if_true] at hbr
    injection hbr with hbr'
    refine ⟨(PexpectTensorFlowConfigure.ofParams p).headSteps pbin pdist ++
      ([ ⟨.regex cudaVersionPat, p.cuda_version⟩,
         ⟨.regex cudaPathPat, p.cuda_path⟩,
         ⟨.regex cudnnVersionPat, p.cuda_cudnn_version⟩,
         ⟨.regex cudnnPathPat, p.cuda_cudnn_path⟩,
         ⟨.regex tensorrtPat, some (bool_y_n.str ⟨p.cuda_with_tensorrt⟩)⟩ ]
       ++ (if (bool_y_n.toBool ⟨p.cuda_with_tensorrt⟩) then
             [⟨.regex tensorrtPathPat, p.cuda_tensorrt_path⟩] else [])
       ++ [ ⟨.regex ncclPat, p.cuda_nccl_version⟩,
            ⟨.regex capsPat, some (cudaCapabilitiesJoin caps)⟩ ]),
      (PexpectTensorFlowConfigure.ofParams p).mpiSteps ++
        (PexpectTensorFlowConfigure.ofParams p).tailSteps, ?_⟩
    rw [← hsteps, ← hbr']
    simp [PexpectTensorFlowConfigure.ofParams, bool_y_n.str, bool_y_n.toBool, hclangF, List.append_assoc]

/-- C10: the yes/no wrapper preserves truthiness (bool of the wrapper
equals the wrapped boolean), so on every validated configuration the
branch flags consulted by run() equal the caller-supplied booleans, and
the pattern sequence of every successful run is determined solely by the
CUDA, TensorRT and MPI booleans. -/
theorem claim10_truthiness_branching :
    (∀ b : Bool, (bool_y_n.mk b).toBool = b) ∧
    ∀ (p : Params) (fs : String → Bool) (c : PexpectTensorFlowConfigure),
      PexpectTensorFlowConfigure.init p fs = .ok c →
      (c.with_cuda.toBool = p.with_cuda ∧
       c.cuda_with_tensorrt.toBool = p.cuda_with_tensorrt ∧
       c.with_mpi.toBool = p.with_mpi ∧
       c.cuda_with_clang.toBool = p.cuda_with_clang) ∧
      ∀ steps, c.run fs = .ok steps →
        steps.map Step.pattern = patternSeq p.with_cuda p.cuda_with_tensorrt p.with_mpi := by
  refine ⟨fun b => by cases b <;> simp [bool_y_n.toBool], ?_⟩
  intro p fs c hinit
  unfold PexpectTensorFlowConfigure.init at hinit
  split at hinit
  · simp at hinit
  split at hinit
  · simp at hinit
  split at hinit
  · simp at hinit
  next hclang' =>
  split at hinit
  · simp at hinit
  split at hinit
  · simp at hinit
  injection hinit with hc
  subst hc
  have hclangF : p.cuda_with_clang = false := by simpa using hclang'
  refine ⟨by simp [PexpectTensorFlowConfigure.ofParams, bool_y_n.toBool], ?_⟩
  intro steps hrun
  unfold PexpectTensorFlowConfigure.run at hrun
  split at hrun
  · simp at hrun
  next pbin hpb =>
  split at hrun
  · simp at hrun
  next pdist hpd =>
  split at hrun
  · simp at hrun
  next cudaSteps hbr =>
  have hsteps : (PexpectTensorFlowConfigure.ofParams p).headSteps pbin pdist ++ cudaSteps ++
      (PexpectTensorFlowConfigure.ofParams p).mpiSteps ++
      (PexpectTensorFlowConfigure.ofParams p).tailSteps = steps := by
    injection hrun
  subst hsteps
  simp only [PexpectTensorFlowConfigure.cudaBranch, PexpectTensorFlowConfigure.ofParams,
    bool_y_n.toBool] at hbr
  cases hcu : p.with_cuda with
  | false =>
    simp only [hcu, Bool.not_false, if_true, if_false] at hbr
    injection hbr with hbr'
    subst hbr'
    by_cases hmpi : p.with_mpi = true <;>
      simp [PexpectTensorFlowConfigure.headSteps, PexpectTensorFlowConfigure.mpiSteps,
            PexpectTensorFlowConfigure.tailSteps, PexpectTensorFlowConfigure.ofParams,
            patternSeq, bool_y_n.toBool, hcu, hmpi]
  | true =>
    cases hcaps : p.cuda_capabilities with
    | none => simp only [hcu, hcaps, Bool.not_true, if_false, if_true] at hbr; simp at hbr
    | some caps =>
      simp only [hcu, hcaps, hclangF, Bool.not_true, if_false, if_true] at hbr
      injection hbr with hbr'
      subst hbr'
      by_cases htrt : p.cuda_with_tensorrt = true <;> by_cases hmpi : p.with_mpi = true <;>
        simp [PexpectTensorFlowConfigure.headSteps, PexpectTensorFlowConfigure.mpiSteps,
              PexpectTensorFlowConfigure.tailSteps, PexpectTensorFlowConfigure.ofParams,
              patternSeq, bool_y_n.toBool, hcu, hmpi, htrt]

/-- Witness for C9 at the concrete GPU configuration: the clang flag is
false and the trace contains the clang prompt answered N immediately
followed by the gcc prompt. -/
theorem claim9_clang_branch_unreachable_w :
    cGpu.cuda_with_clang.toBool = false ∧
    ∃ l r, stepsGpu = l ++ [⟨.regex clangPat, some "N"⟩, ⟨.regex gccPat, cGpu.cuda_gcc_path⟩] ++ r :=
  ⟨(claim9_clang_branch_unreachable pGpu fsTrue cGpu rfl).1,
   (claim9_clang_branch_unreachable pGpu fsTrue cGpu rfl).2 stepsGpu
     (rfl : cGpu.run fsTrue = Except.ok stepsGpu) rfl⟩

/-- Witness for C10 at the concrete GPU configuration: truthiness at true,
flag agreement, and the pattern skeleton of the GPU trace. -/
theorem claim10_truthiness_branching_w :
    (bool_y_n.mk true).toBool = true ∧
    (cGpu.with_cuda.toBool = pGpu.with_cuda ∧
     cGpu.cuda_with_tensorrt.toBool = pGpu.cuda_with_tensorrt ∧
     cGpu.with_mpi.toBool = pGpu.with_mpi ∧
     cGpu.cuda_with_clang.toBool = pGpu.cuda_with_clang) ∧
    stepsGpu.map Step.pattern = patternSeq pGpu.with_cuda pGpu.cuda_with_tensorrt pGpu.with_mpi :=
  ⟨claim10_truthiness_branching.1 true,
   (claim10_truthiness_branching.2 pGpu fsTrue cGpu rfl).1,
   (claim10_truthiness_branching.2 pGpu fsTrue cGpu rfl).2 stepsGpu
     (rfl : cGpu.run fsTrue = Except.ok stepsGpu)⟩
